import Mathlib

/-!
Shallow embedding of the TA grading-agent pipeline.

The embedding follows the Python sources:
* `src/grader_agent/grader.py` — `GradingResult`, `GraderAgent.grade_submission`,
  `GraderAgent._parse_response`, `GraderAgent._create_error_result`;
* `src/grader_agent/prompt_builder.py` — `build_dry_run_response`;
* `src/grader_agent/pdf_processor.py` — `Submission`, `PDFProcessor`;
* `main.py` — `write_audit_log`, `run_grading_pipeline`.

Python floats for scores and confidences are modelled as exact rationals `ℚ`.
The external language-model client is modelled as an oracle assigning each
attempt number an outcome (a structured response, a JSON-decode error, or
any other exception).  Sleeps and API calls are recorded in an event trace.
-/

namespace TAAgent

/-- One entry of the `rubric_scores` array (shape fixed by
`GRADING_OUTPUT_SCHEMA` in `prompt_builder.py`). -/
structure RubricScore where
  criterion : String
  max_points : ℚ
  awarded_points : ℚ
  justification : String
deriving DecidableEq, Repr

/-- The parsed JSON payload handed to `_parse_response`.  Every field is
optional, mirroring `response_data.get(key, default)` lookups in the code. -/
structure ResponseData where
  student_name : Option String := none
  rubric_scores : Option (List RubricScore) := none
  total_score : Option ℚ := none
  max_possible_score : Option ℚ := none
  percentage : Option ℚ := none
  letter_grade : Option String := none
  feedback : Option String := none
  strengths : Option (List String) := none
  improvements : Option (List String) := none
  integrity_flag : Option Bool := none
  integrity_reason : Option String := none
  confidence : Option ℚ := none
deriving DecidableEq, Repr

/-- `Submission` dataclass from `pdf_processor.py`. -/
structure Submission where
  student_name : String
  file_path : String
  text_content : String
  page_count : Nat
  extraction_success : Bool
  error_message : Option String := none
deriving DecidableEq, Repr

/-- `GradingResult` dataclass from `grader.py`.  `raw_response` is the
unvalidated payload (`{}` default modelled as `none`). -/
structure GradingResult where
  student_name : String
  total_score : ℚ
  max_possible_score : ℚ
  percentage : ℚ
  letter_grade : String
  feedback : String
  strengths : List String
  improvements : List String
  rubric_scores : List RubricScore
  integrity_flag : Bool
  integrity_reason : String
  confidence : ℚ
  flagged_for_review : Bool := false
  flag_reason : String := ""
  raw_response : Option ResponseData := none
  error : Option String := none
deriving DecidableEq, Repr

/-- The configurable fields of `GraderAgent.__init__`, with its defaults.
`max_retries` is an integer (Python allows a negative value here, which makes
the retry `range` empty). -/
structure GraderConfig where
  model : String := "gpt-5-mini"
  max_tokens : Nat := 2000
  temperature : ℚ := 0
  confidence_threshold : ℚ := 0.7
  max_retries : Int := 2
deriving DecidableEq, Repr

/-- Python `str(x)` for an optional string: `None` prints as `"None"`
inside an f-string. -/
def pyOptStr : Option String → String
  | none => "None"
  | some s => s

/-- Round to the nearest integer, ties to even — the rounding used by
Python `format(x, ".2f")`. -/
def roundHalfEven (x : ℚ) : ℤ :=
  let n := ⌊x⌋
  let r := x - n
  if r < 1/2 then n
  else if 1/2 < r then n + 1
  else if 2 ∣ n then n else n + 1

/-- Python `f"{q:.2f}"`: fixed-point rendering with two decimals. -/
def fmt2 (q : ℚ) : String :=
  let sign := if q < 0 then "-" else ""
  let cents := roundHalfEven (|q| * 100)
  let whole := cents / 100
  let frac := cents % 100
  sign ++ toString whole.toNat ++ "." ++
    (if frac < 10 then "0" else "") ++ toString frac.toNat

/-- `GraderAgent._parse_response`: field extraction with defaults and the
confidence/integrity triage decision.  (In this typed embedding the
`except` branch of `_parse_response` is unreachable: field accesses on a
typed record cannot raise.) -/
def parseResponse (cfg : GraderConfig) (response_data : ResponseData)
    (student_name : String) : GradingResult :=
  let confidence := response_data.confidence.getD (1/2)
  let integrityFlag := response_data.integrity_flag.getD false
  let integrityReason := response_data.integrity_reason.getD ""
  let triage : Bool × String :=
    if confidence < cfg.confidence_threshold then
      (true, "Low confidence score: " ++ fmt2 confidence)
    else if integrityFlag then
      (true, "Academic integrity concern: " ++ integrityReason)
    else
      (false, "")
  { student_name := response_data.student_name.getD student_name
    total_score := response_data.total_score.getD 0
    max_possible_score := response_data.max_possible_score.getD 100
    percentage := response_data.percentage.getD 0
    letter_grade := response_data.letter_grade.getD ""
    feedback := response_data.feedback.getD ""
    strengths := response_data.strengths.getD []
    improvements := response_data.improvements.getD []
    rubric_scores := response_data.rubric_scores.getD []
    integrity_flag := integrityFlag
    integrity_reason := integrityReason
    confidence := confidence
    flagged_for_review := triage.1
    flag_reason := triage.2
    raw_response := some response_data
    error := none }

/-- `GraderAgent._create_error_result`. -/
def createErrorResult (student_name : String) (error_message : String) :
    GradingResult :=
  { student_name := student_name
    total_score := 0
    max_possible_score := 0
    percentage := 0
    letter_grade := ""
    feedback := ""
    strengths := []
    improvements := []
    rubric_scores := []
    integrity_flag := false
    integrity_reason := ""
    confidence := 0
    flagged_for_review := true
    flag_reason := "Grading error: " ++ error_message
    error := some error_message }

/-- `build_dry_run_response` from `prompt_builder.py`: the fixed mock payload. -/
def buildDryRunResponse (student_name : String) : ResponseData :=
  { student_name := some student_name
    rubric_scores := some
      [ { criterion := "Content Quality", max_points := 40,
          awarded_points := 35,
          justification := "[DRY RUN] Mock score for testing" },
        { criterion := "Organization", max_points := 30,
          awarded_points := 25,
          justification := "[DRY RUN] Mock score for testing" },
        { criterion := "Writing Quality", max_points := 30,
          awarded_points := 28,
          justification := "[DRY RUN] Mock score for testing" } ]
    total_score := some 88
    max_possible_score := some 100
    percentage := some 88.0
    letter_grade := some "B+"
    feedback := some "[DRY RUN] This is a mock feedback response for testing the pipeline. No actual grading was performed."
    strengths := some ["[DRY RUN] Mock strength 1", "[DRY RUN] Mock strength 2"]
    improvements := some ["[DRY RUN] Mock improvement 1", "[DRY RUN] Mock improvement 2"]
    integrity_flag := some false
    integrity_reason := some ""
    confidence := some 0.95 }

/-- Outcome of one attempted API call (the external client is an oracle). -/
inductive CallOutcome where
  | success (resp : ResponseData)
  | jsonError (msg : String)
  | otherError (msg : String)
deriving DecidableEq, Repr

/-- Observable side effects of `grade_submission`'s live-call loop. -/
inductive Event where
  | apiCall
  | sleep (seconds : ℚ)
deriving DecidableEq, Repr

/-- The retry loop of `grade_submission`
(`for attempt in range(self.max_retries + 1): ...`).  The guard
`(attempt : ℤ) ≤ max_retries` is Python's `attempt < max_retries + 1`;
falling past the loop returns `none` (Python `None`).  On a JSON decode
error before the last attempt the code sleeps 1 second; on any other
exception it sleeps `2 ** attempt` seconds. -/
def apiLoop (cfg : GraderConfig) (student_name : String)
    (oracle : Nat → CallOutcome) (attempt : Nat) :
    List Event × Option GradingResult :=
  if h : (attempt : Int) ≤ cfg.max_retries then
    match oracle attempt with
    | .success resp =>
        ([.apiCall], some (parseResponse cfg resp student_name))
    | .jsonError e =>
        if h2 : (attempt : Int) = cfg.max_retries then
          ([.apiCall], some (createErrorResult student_name
            ("Failed to parse API response as JSON: " ++ e)))
        else
          let rest := apiLoop cfg student_name oracle (attempt + 1)
          (.apiCall :: .sleep 1 :: rest.1, rest.2)
    | .otherError e =>
        if h2 : (attempt : Int) = cfg.max_retries then
          ([.apiCall], some (createErrorResult student_name
            ("API call failed: " ++ e)))
        else
          let rest := apiLoop cfg student_name oracle (attempt + 1)
          (.apiCall :: .sleep ((2 : ℚ) ^ attempt) :: rest.1, rest.2)
  else ([], none)
termination_by (cfg.max_retries + 1 - attempt).toNat
decreasing_by all_goals omega

/-- `GraderAgent.grade_submission`: extraction-failure short-circuit,
dry-run short-circuit, then the live retry loop.  Returns the event trace
together with the (optional) result. -/
def gradeSubmission (cfg : GraderConfig) (submission : Submission)
    (dry_run : Bool) (oracle : Nat → CallOutcome) :
    List Event × Option GradingResult :=
  if submission.extraction_success = false then
    ([], some
      { student_name := submission.student_name
        total_score := 0
        max_possible_score := 0
        percentage := 0
        letter_grade := ""
        feedback := ""
        strengths := []
        improvements := []
        rubric_scores := []
        integrity_flag := false
        integrity_reason := ""
        confidence := 0
        flagged_for_review := true
        flag_reason := "PDF extraction failed: " ++ pyOptStr submission.error_message
        error := submission.error_message })
  else if dry_run then
    ([], some (parseResponse cfg (buildDryRunResponse submission.student_name)
      submission.student_name))
  else
    apiLoop cfg submission.student_name oracle 0

/-- `Path(filename).stem`: filename without its final extension (for the
ordinary `lastname.pdf` filenames this drops `.pdf`). -/
def pathStem (filename : String) : String :=
  let parts := filename.splitOn "."
  match parts with
  | [] => filename
  | [_] => filename
  | _ => String.intercalate "." parts.dropLast

/-- Python `str.title()` over ASCII: a letter starts upper-case after a
non-letter and lower-case after a letter. -/
def pyTitleAux : Bool → List Char → List Char
  | _, [] => []
  | prevAlpha, c :: cs =>
      let c2 := if c.isAlpha then (if prevAlpha then c.toLower else c.toUpper) else c
      c2 :: pyTitleAux c.isAlpha cs

/-- Python `str.title()`. -/
def pyTitle (s : String) : String := ⟨pyTitleAux false s.data⟩

/-- `PDFProcessor.get_student_name_from_filename`: stem, separators to
spaces, title-case. -/
def getStudentNameFromFilename (filename : String) : String :=
  pyTitle (((pathStem filename).replace "_" " ").replace "-" " ")

/-- Outcome of the external text extractor (`fitz`) on one file: extracted
text plus page count, or a raised exception message. -/
inductive ExtractOutcome where
  | ok (text : String) (page_count : Nat)
  | raises (msg : String)
deriving DecidableEq, Repr

/-- The filesystem as seen by `PDFProcessor`: whether the submissions
directory exists, the (glob-listed) PDF file names, and the extractor's
behaviour on each file. -/
structure FileSystem where
  dirExists : Bool
  pdfFiles : List String
  extract : String → ExtractOutcome

/-- `PDFProcessor.process_submission`: per-file extraction; an exception or
an empty text layer yields `extraction_success := false` with a message,
never a raised error. -/
def processSubmission (extract : String → ExtractOutcome)
    (filename : String) : Submission :=
  let student_name := getStudentNameFromFilename filename
  match extract filename with
  | .ok text page_count =>
      if text.trim = "" then
        { student_name := student_name
          file_path := filename
          text_content := ""
          page_count := page_count
          extraction_success := false
          error_message := some "PDF appears to be empty or contains only images/scans" }
      else
        { student_name := student_name
          file_path := filename
          text_content := text
          page_count := page_count
          extraction_success := true }
  | .raises msg =>
      { student_name := student_name
        file_path := filename
        text_content := ""
        page_count := 0
        extraction_success := false
        error_message := some msg }

/-- `PDFProcessor.get_all_submissions`: missing directory raises
`FileNotFoundError`, an empty glob raises `ValueError`, otherwise every
(lexicographically sorted) PDF is processed. -/
def getAllSubmissions (fs : FileSystem) : Except String (List Submission) :=
  if fs.dirExists = false then
    .error "Submissions directory not found"
  else
    let pdf_files := fs.pdfFiles.mergeSort (· ≤ ·)
    if pdf_files = [] then
      .error "No PDF files found"
    else
      .ok (pdf_files.map (processSubmission fs.extract))

/-- One record of the JSONL audit log, with exactly the keys written by
`write_audit_log` in `main.py` (the timestamp is supplied externally). -/
structure AuditEntry where
  timestamp : String
  student_id : String
  total_score : ℚ
  max_possible_score : ℚ
  percentage : ℚ
  letter_grade : String
  rubric_scores : List RubricScore
  confidence : ℚ
  integrity_flag : Bool
  flagged_for_review : Bool
  flag_reason : String
  error : Option String
deriving DecidableEq, Repr

/-- `write_audit_log`: build the audit record for one result. -/
def writeAuditEntry (now : String) (result : GradingResult) : AuditEntry :=
  { timestamp := now
    student_id := result.student_name
    total_score := result.total_score
    max_possible_score := result.max_possible_score
    percentage := result.percentage
    letter_grade := result.letter_grade
    rubric_scores := result.rubric_scores
    confidence := result.confidence
    integrity_flag := result.integrity_flag
    flagged_for_review := result.flagged_for_review
    flag_reason := result.flag_reason
    error := result.error }

/-- The JSON keys of one audit record, in the order `write_audit_log`
emits them. -/
def auditEntryKeys : List String :=
  ["timestamp", "student_id", "total_score", "max_possible_score",
   "percentage", "letter_grade", "rubric_scores", "confidence",
   "integrity_flag", "flagged_for_review", "flag_reason", "error"]

/-- The field names of the `GradingResult` dataclass, in declaration
order. -/
def gradingResultFields : List String :=
  ["student_name", "total_score", "max_possible_score", "percentage",
   "letter_grade", "feedback", "strengths", "improvements",
   "rubric_scores", "integrity_flag", "integrity_reason", "confidence",
   "flagged_for_review", "flag_reason", "raw_response", "error"]

/-- Observable events of `run_grading_pipeline`'s batching loop. -/
inductive PipeEvent where
  | interBatchDelay (seconds : ℚ)
  | auditWrite (entry : AuditEntry)
  | intraBatchDelay (seconds : ℚ)
deriving DecidableEq, Repr

/-- The batch slicing `submissions_to_process[i:i+batch_size]` for
`i in range(0, len(submissions_to_process), batch_size)`.  (Python raises
`ValueError` on step 0; a 0 size is mapped to no batches and never used by
the claims.) -/
def batches : List Submission → Nat → List (List Submission)
  | _, 0 => []
  | [], _ + 1 => []
  | s :: rest, size + 1 =>
      (s :: rest).take (size + 1) :: batches ((s :: rest).drop (size + 1)) (size + 1)
termination_by l _ => l.length
decreasing_by simp only [List.length_drop, List.length_cons]; omega

/-- The inner per-batch loop of `run_grading_pipeline`: grade, write the
audit record, and (outside dry-run, between submissions of a batch) sleep
0.5 seconds.  `gradeFn` stands for `grader.grade_submission` applied to the
fixed rubric and instructions. -/
def processBatch (gradeFn : Submission → GradingResult) (now : String)
    (dry_run : Bool) : List Submission → List PipeEvent
  | [] => []
  | [s] => [.auditWrite (writeAuditEntry now (gradeFn s))]
  | s :: s2 :: rest =>
      .auditWrite (writeAuditEntry now (gradeFn s)) ::
        ((if dry_run then [] else [.intraBatchDelay (1/2)]) ++
          processBatch gradeFn now dry_run (s2 :: rest))

/-- The batching loop of `run_grading_pipeline`: apply the resume offset,
slice into batches, and sleep `delay_between_batches` before every batch
except the first (`if batch_num > 0`). -/
def pipelineEvents (gradeFn : Submission → GradingResult) (now : String)
    (dry_run : Bool) (delay_between_batches : ℚ)
    (submissions : List Submission) (batch_start batch_size : Nat) :
    List PipeEvent :=
  match batches (submissions.drop batch_start) batch_size with
  | [] => []
  | b :: rest =>
      processBatch gradeFn now dry_run b ++
        rest.flatMap (fun batch =>
          .interBatchDelay delay_between_batches ::
            processBatch gradeFn now dry_run batch)

/-- The audit log produced by a run: the audit records in the order they
were appended. -/
def auditLogOf (events : List PipeEvent) : List AuditEntry :=
  events.filterMap fun e =>
    match e with
    | .auditWrite entry => some entry
    | _ => none

/-- Whether `needle` occurs as a contiguous substring of `hay` (used to
state that a flag reason "references" a given word). -/
def containsSubstring (needle hay : String) : Bool :=
  (List.range (hay.data.length + 1)).any fun i =>
    needle.data.isPrefixOf (hay.data.drop i)

/-- Whether a call outcome is a failure (an exception in the retry loop). -/
def isFailure : CallOutcome → Bool
  | .success _ => false
  | .jsonError _ => true
  | .otherError _ => true

/-- The error message `grade_submission` records when the last retry fails
with the given outcome. -/
def failMessage : CallOutcome → Option String
  | .success _ => none
  | .jsonError e => some ("Failed to parse API response as JSON: " ++ e)
  | .otherError e => some ("API call failed: " ++ e)

/-- The sleep the retry loop performs after a failed attempt that is not
the last one: 1 second after a JSON decode error, `2 ^ attempt` seconds
after any other exception. -/
def failDelay (attempt : Nat) : CallOutcome → ℚ
  | .success _ => 0
  | .jsonError _ => 1
  | .otherError _ => (2 : ℚ) ^ attempt

/-- Whether a pipeline event is the inter-batch delay. -/
def isInterBatchDelayEvent : PipeEvent → Bool
  | .interBatchDelay _ => true
  | _ => false

/-- Sample inputs reused by the witnesses below. -/
def sampleOkSub : Submission :=
  { student_name := "Smith", file_path := "smith.pdf",
    text_content := "--- Page 1 ---\nanswer text", page_count := 2,
    extraction_success := true }

def sampleFailSub : Submission :=
  { student_name := "Jones", file_path := "jones.pdf", text_content := "",
    page_count := 0, extraction_success := false,
    error_message := some "PDF appears to be empty or contains only images/scans" }

def sampleFailOracle : Nat → CallOutcome := fun i =>
  if i = 0 then .jsonError "Expecting value" else .otherError "rate limited"

def sampleSuccessOracle : Nat → CallOutcome := fun _ => .success {}

/-- A sample model response raising the integrity flag with high
confidence. -/
def sampleIntegrityResp : ResponseData :=
  { integrity_flag := some true, integrity_reason := some "copied text",
    confidence := some (9/10) }

/-- A concrete grading function for pipeline witnesses. -/
def sampleGradeFn : Submission → GradingResult :=
  fun s => createErrorResult s.student_name "boom"

/-- A concrete submission list for pipeline witnesses. -/
def sampleSubs : List Submission := [sampleOkSub, sampleFailSub, sampleOkSub]

/-- A filesystem whose submissions directory is missing. -/
def fsMissing : FileSystem :=
  { dirExists := false, pdfFiles := [], extract := fun _ => .raises "unused" }

/-- A filesystem whose submissions directory holds no PDF files. -/
def fsEmptyDir : FileSystem :=
  { dirExists := true, pdfFiles := [], extract := fun _ => .raises "unused" }

/-- A filesystem with one readable and one unreadable PDF. -/
def fsMixed : FileSystem :=
  { dirExists := true
    pdfFiles := ["smith.pdf", "jones.pdf"]
    extract := fun f =>
      if f = "smith.pdf" then .ok "homework answer text" 2
      else .raises "cannot open broken file: jones.pdf" }

/-! ## Basic facts about `_parse_response` -/

theorem parseResponse_error_eq (cfg : GraderConfig) (resp : ResponseData)
    (name : String) : (parseResponse cfg resp name).error = none := rfl

theorem parseResponse_confidence_eq (cfg : GraderConfig) (resp : ResponseData)
    (name : String) :
    (parseResponse cfg resp name).confidence = resp.confidence.getD (1/2) := rfl

theorem parseResponse_integrity_eq (cfg : GraderConfig) (resp : ResponseData)
    (name : String) :
    (parseResponse cfg resp name).integrity_flag = resp.integrity_flag.getD false := rfl

theorem parseResponse_lowconf (cfg : GraderConfig) (resp : ResponseData)
    (name : String) (h : resp.confidence.getD (1/2) < cfg.confidence_threshold) :
    (parseResponse cfg resp name).flagged_for_review = true ∧
    (parseResponse cfg resp name).flag_reason =
      "Low confidence score: " ++ fmt2 (resp.confidence.getD (1/2)) := by
  unfold parseResponse
  rw [one_div] at h
  simp [h]

theorem parseResponse_integrity_branch (cfg : GraderConfig) (resp : ResponseData)
    (name : String) (h1 : ¬ resp.confidence.getD (1/2) < cfg.confidence_threshold)
    (h2 : resp.integrity_flag.getD false = true) :
    (parseResponse cfg resp name).flagged_for_review = true ∧
    (parseResponse cfg resp name).flag_reason =
      "Academic integrity concern: " ++ resp.integrity_reason.getD "" := by
  unfold parseResponse
  rw [one_div] at h1
  simp [h1, h2]

theorem parseResponse_not_flagged (cfg : GraderConfig) (resp : ResponseData)
    (name : String) (h1 : ¬ resp.confidence.getD (1/2) < cfg.confidence_threshold)
    (h2 : resp.integrity_flag.getD false = false) :
    (parseResponse cfg resp name).flagged_for_review = false ∧
    (parseResponse cfg resp name).flag_reason = "" := by
  unfold parseResponse
  rw [one_div] at h1
  simp [h1, h2]

theorem createErrorResult_flagged (name msg : String) :
    (createErrorResult name msg).flagged_for_review = true := rfl

theorem roundHalfEven_intCast (n : ℤ) : roundHalfEven (n : ℚ) = n := by
  unfold roundHalfEven
  rw [Int.floor_intCast]
  norm_num

theorem fmt2_069 : fmt2 (69/100 : ℚ) = "0.69" := by
  unfold fmt2
  rw [if_neg (by norm_num)]
  rw [show |(69/100 : ℚ)| * 100 = ((69 : ℤ) : ℚ) by
    rw [abs_of_nonneg (by norm_num : (0:ℚ) ≤ 69/100)]; norm_num]
  rw [roundHalfEven_intCast]
  decide

theorem fmt2_half : fmt2 (1/2 : ℚ) = "0.50" := by
  unfold fmt2
  rw [if_neg (by norm_num)]
  rw [show |(1/2 : ℚ)| * 100 = ((50 : ℤ) : ℚ) by
    rw [abs_of_nonneg (by norm_num : (0:ℚ) ≤ 1/2)]; norm_num]
  rw [roundHalfEven_intCast]
  decide

theorem isPrefixOf_append_self (l1 l2 : List Char) :
    l1.isPrefixOf (l1 ++ l2) = true := by
  induction l1 with
  | nil => simp [List.isPrefixOf]
  | cons c cs ih => simp [List.isPrefixOf, ih]

theorem containsSubstring_integrity (ir : String) :
    containsSubstring "integrity" ("Academic integrity concern: " ++ ir) = true := by
  unfold containsSubstring
  rw [List.any_eq_true]
  refine ⟨9, ?_, ?_⟩
  · rw [List.mem_range, String.data_append, List.length_append]
    have h28 : ("Academic integrity concern: " : String).data.length = 28 := rfl
    omega
  · rw [String.data_append]
    rw [show ("Academic integrity concern: " : String).data =
      ("Academic " : String).data ++
        (("integrity" : String).data ++ (" concern: " : String).data) from rfl]
    rw [List.append_assoc]
    rw [show (9 : Nat) = ("Academic " : String).data.length from rfl]
    rw [List.drop_left]
    rw [List.append_assoc]
    exact isPrefixOf_append_self _ _

/-- Every `some` result of the retry loop is either a parsed response or an
error result. -/
theorem apiLoop_result (cfg : GraderConfig) (name : String)
    (oracle : Nat → CallOutcome) :
    ∀ (k attempt : Nat), (cfg.max_retries + 1 - attempt).toNat = k →
    ∀ r, (apiLoop cfg name oracle attempt).2 = some r →
    (∃ resp, r = parseResponse cfg resp name) ∨
      ∃ msg, r = createErrorResult name msg := by
  intro k
  induction k using Nat.strong_induction_on with
  | _ k ih =>
    intro attempt hk r hr
    rw [apiLoop] at hr
    split at hr
    case isTrue h =>
      split at hr
      case h_1 resp heq =>
        exact Or.inl ⟨resp, by simpa using hr.symm⟩
      case h_2 e heq =>
        split at hr
        case isTrue h2 =>
          exact Or.inr ⟨_, by simpa using hr.symm⟩
        case isFalse h2 =>
          simp only at hr
          exact ih ((cfg.max_retries + 1 - (attempt + 1)).toNat)
            (by omega) (attempt + 1) rfl r hr
      case h_3 e heq =>
        split at hr
        case isTrue h2 =>
          exact Or.inr ⟨_, by simpa using hr.symm⟩
        case isFalse h2 =>
          simp only at hr
          exact ih ((cfg.max_retries + 1 - (attempt + 1)).toNat)
            (by omega) (attempt + 1) rfl r hr
    case isFalse h =>
      simp at hr

/-- The retry loop produces a result whenever the current attempt is within
range. -/
theorem apiLoop_isSome (cfg : GraderConfig) (name : String)
    (oracle : Nat → CallOutcome) :
    ∀ (k attempt : Nat), (cfg.max_retries + 1 - attempt).toNat = k →
    (attempt : Int) ≤ cfg.max_retries →
    ((apiLoop cfg name oracle attempt).2).isSome = true := by
  intro k
  induction k using Nat.strong_induction_on with
  | _ k ih =>
    intro attempt hk hin
    rw [apiLoop]
    rw [dif_pos hin]
    cases hor : oracle attempt with
    | success resp => simp
    | jsonError e =>
      by_cases h2 : (attempt : Int) = cfg.max_retries
      · simp [h2]
      · simp only [h2, dite_false]
        exact ih ((cfg.max_retries + 1 - (attempt + 1)).toNat)
          (by omega) (attempt + 1) rfl (by omega)
    | otherError e =>
      by_cases h2 : (attempt : Int) = cfg.max_retries
      · simp [h2]
      · simp only [h2, dite_false]
        exact ih ((cfg.max_retries + 1 - (attempt + 1)).toNat)
          (by omega) (attempt + 1) rfl (by omega)

/-- If every attempt from `attempt` up to `m = max_retries` fails, the
retry loop runs them all, sleeping the documented delay after each
non-final failure, and returns the error result of the last attempt. -/
theorem apiLoop_all_fail (cfg : GraderConfig) (name : String)
    (oracle : Nat → CallOutcome) (m : Nat) (hm : cfg.max_retries = (m : Int)) :
    ∀ (k attempt : Nat), attempt + k = m →
    (∀ i, attempt ≤ i → i ≤ m → isFailure (oracle i) = true) →
    apiLoop cfg name oracle attempt =
      ((List.range' attempt k).flatMap
          (fun i => [Event.apiCall, Event.sleep (failDelay i (oracle i))]) ++
          [Event.apiCall],
        some (createErrorResult name ((failMessage (oracle m)).getD ""))) := by
  intro k
  induction k with
  | zero =>
    intro attempt hk hfail
    have ha : attempt = m := by omega
    subst ha
    rw [apiLoop, dif_pos (by rw [hm])]
    have hf := hfail attempt le_rfl le_rfl
    cases h : oracle attempt with
    | success resp => rw [h] at hf; exact absurd hf (by simp [isFailure])
    | jsonError e => simp [hm, failMessage]
    | otherError e => simp [hm, failMessage]
  | succ k ih =>
    intro attempt hk hfail
    have hlt : attempt < m := by omega
    rw [apiLoop, dif_pos (by rw [hm]; exact_mod_cast Nat.le_of_lt hlt)]
    have hne : (attempt : Int) ≠ cfg.max_retries := by
      rw [hm]; exact_mod_cast Nat.ne_of_lt hlt
    have hf := hfail attempt le_rfl (Nat.le_of_lt hlt)
    have hrest := ih (attempt + 1) (by omega)
      (fun i hi1 hi2 => hfail i (by omega) hi2)
    cases h : oracle attempt with
    | success resp => rw [h] at hf; exact absurd hf (by simp [isFailure])
    | jsonError e =>
      simp only [hne, dite_false]
      rw [hrest, List.range'_succ, List.flatMap_cons, h]
      simp [failDelay]
    | otherError e =>
      simp only [hne, dite_false]
      rw [hrest, List.range'_succ, List.flatMap_cons, h]
      simp [failDelay]

/-- The triage invariant for parsed responses: a result of
`_parse_response` whose error is set (impossible), whose confidence is
below the threshold, or whose integrity flag is raised, is flagged. -/
theorem parseResponse_invariant (cfg : GraderConfig) (resp : ResponseData)
    (name : String)
    (htrig : (parseResponse cfg resp name).error ≠ none ∨
      (parseResponse cfg resp name).confidence < cfg.confidence_threshold ∨
      (parseResponse cfg resp name).integrity_flag = true) :
    (parseResponse cfg resp name).flagged_for_review = true := by
  rcases htrig with h | h | h
  · exact absurd (parseResponse_error_eq cfg resp name) h
  · exact (parseResponse_lowconf cfg resp name
      (by rwa [parseResponse_confidence_eq] at h)).1
  · rw [parseResponse_integrity_eq] at h
    by_cases hc : resp.confidence.getD (1/2) < cfg.confidence_threshold
    · exact (parseResponse_lowconf cfg resp name hc).1
    · exact (parseResponse_integrity_branch cfg resp name hc h).1

/-! ## Facts about the batching pipeline -/

theorem auditLogOf_append (a b : List PipeEvent) :
    auditLogOf (a ++ b) = auditLogOf a ++ auditLogOf b := by
  unfold auditLogOf
  exact List.filterMap_append a b _

theorem auditLogOf_delay_cons (d : ℚ) (l : List PipeEvent) :
    auditLogOf (.interBatchDelay d :: l) = auditLogOf l := rfl

theorem auditLogOf_intra_cons (q : ℚ) (l : List PipeEvent) :
    auditLogOf (.intraBatchDelay q :: l) = auditLogOf l := rfl

theorem auditLogOf_write_cons (e : AuditEntry) (l : List PipeEvent) :
    auditLogOf (.auditWrite e :: l) = e :: auditLogOf l := rfl

theorem auditLogOf_processBatch (g : Submission → GradingResult)
    (now : String) (dr : Bool) :
    ∀ b, auditLogOf (processBatch g now dr b) =
      b.map (fun s => writeAuditEntry now (g s)) := by
  intro b
  induction b with
  | nil => rfl
  | cons s rest ih =>
    cases rest with
    | nil => rfl
    | cons s2 rest2 =>
      rw [processBatch]
      show auditLogOf (.auditWrite (writeAuditEntry now (g s)) ::
        ((if dr then [] else [.intraBatchDelay (1/2)]) ++
          processBatch g now dr (s2 :: rest2))) = _
      cases dr with
      | false =>
        rw [if_neg (by simp), List.singleton_append, auditLogOf_write_cons,
          auditLogOf_intra_cons, ih]
        rfl
      | true =>
        rw [if_pos rfl, List.nil_append, auditLogOf_write_cons, ih]
        rfl

theorem batches_flatten (size : Nat) :
    ∀ (n : Nat) (l : List Submission), l.length ≤ n →
      (batches l (size + 1)).flatten = l := by
  intro n
  induction n with
  | zero =>
    intro l hl
    have hnil : l = [] := List.length_eq_zero.mp (Nat.le_zero.mp hl)
    subst hnil
    simp [batches]
  | succ n ih =>
    intro l hl
    cases l with
    | nil => simp [batches]
    | cons s rest =>
      rw [batches]
      rw [List.flatten_cons]
      rw [ih ((s :: rest).drop (size + 1)) (by
        simp only [List.length_drop, List.length_cons]
        simp only [List.length_cons] at hl
        omega)]
      exact List.take_append_drop _ _

theorem auditLogOf_flatMap (g : Submission → GradingResult) (now : String)
    (dr : Bool) (d : ℚ) :
    ∀ (bl : List (List Submission)),
      auditLogOf (bl.flatMap fun batch =>
        .interBatchDelay d :: processBatch g now dr batch) =
      bl.flatten.map (fun s => writeAuditEntry now (g s)) := by
  intro bl
  induction bl with
  | nil => rfl
  | cons b bs ih =>
    rw [List.flatMap_cons, List.cons_append, auditLogOf_delay_cons,
      auditLogOf_append, auditLogOf_processBatch, ih, List.flatten_cons,
      List.map_append]

theorem auditLogOf_pipeline (g : Submission → GradingResult) (now : String)
    (dr : Bool) (d : ℚ) (subs : List Submission) (start size : Nat)
    (h : 0 < size) :
    auditLogOf (pipelineEvents g now dr d subs start size) =
      (subs.drop start).map (fun s => writeAuditEntry now (g s)) := by
  obtain ⟨q, rfl⟩ : ∃ q, size = q + 1 := ⟨size - 1, by omega⟩
  unfold pipelineEvents
  split
  case h_1 heq =>
    have hj := batches_flatten q (subs.drop start).length (subs.drop start) le_rfl
    rw [heq] at hj
    simp only [List.flatten_nil] at hj
    rw [← hj]
    rfl
  case h_2 b rest heq =>
    rw [auditLogOf_append, auditLogOf_processBatch, auditLogOf_flatMap]
    have hj := batches_flatten q (subs.drop start).length (subs.drop start) le_rfl
    rw [heq] at hj
    rw [← hj, List.flatten_cons, List.map_append]

theorem processBatch_countP (g : Submission → GradingResult) (now : String)
    (dr : Bool) :
    ∀ b, (processBatch g now dr b).countP isInterBatchDelayEvent = 0 := by
  intro b
  induction b with
  | nil => rfl
  | cons s rest ih =>
    cases rest with
    | nil => rfl
    | cons s2 rest2 =>
      rw [processBatch]
      cases dr with
      | false =>
        simp [List.countP_cons, List.countP_append, isInterBatchDelayEvent, ih]
      | true =>
        simp [List.countP_cons, isInterBatchDelayEvent, ih]

/-! ## The claims -/

/-- Claim C1: for every `GradingResult` produced by `grade_submission` —
via the extraction-failure short-circuit, the dry-run or live parse path,
or the error path — if the `error` field is set, or the confidence is
strictly below the configured threshold, or the integrity flag is true,
then `flagged_for_review` is true. -/
theorem claim1_flagged_invariant (cfg : GraderConfig) (sub : Submission)
    (dry_run : Bool) (oracle : Nat → CallOutcome) (r : GradingResult)
    (hres : (gradeSubmission cfg sub dry_run oracle).2 = some r)
    (htrig : r.error ≠ none ∨ r.confidence < cfg.confidence_threshold ∨
      r.integrity_flag = true) :
    r.flagged_for_review = true := by
  unfold gradeSubmission at hres
  by_cases hx : sub.extraction_success = false
  · rw [if_pos hx] at hres
    simp only [Option.some.injEq] at hres
    rw [← hres]
  · rw [if_neg hx] at hres
    cases dry_run with
    | true =>
      simp only [if_true, Option.some.injEq] at hres
      rw [← hres]
      exact parseResponse_invariant cfg _ _ (hres ▸ htrig)
    | false =>
      simp only [Bool.false_eq_true, if_false] at hres
      rcases apiLoop_result cfg sub.student_name oracle _ 0 rfl r hres with
        ⟨resp, hr⟩ | ⟨msg, hr⟩
      · rw [hr]
        exact parseResponse_invariant cfg _ _ (hr ▸ htrig)
      · rw [hr]
        exact createErrorResult_flagged _ _

/-- Witness for C1 at a concrete extraction-failure input. -/
theorem claim1_witness :
    ((gradeSubmission {} sampleFailSub false sampleSuccessOracle).2.getD
      (createErrorResult "" "")).flagged_for_review = true :=
  claim1_flagged_invariant {} sampleFailSub false sampleSuccessOracle _
    (by decide) (by decide)

/-- Claim C2: the confidence triage comparison in `_parse_response` is
strict: a response confidence strictly below the threshold is flagged with
the low-confidence reason carrying the formatted numeric value, and a
confidence exactly equal to the threshold is not flagged on the confidence
criterion (it is flagged exactly when the integrity flag is raised). -/
theorem claim2_strict_confidence_triage (cfg : GraderConfig)
    (resp : ResponseData) (name : String) :
    (resp.confidence.getD (1/2) < cfg.confidence_threshold →
      (parseResponse cfg resp name).flagged_for_review = true ∧
      (parseResponse cfg resp name).flag_reason =
        "Low confidence score: " ++ fmt2 (resp.confidence.getD (1/2))) ∧
    (resp.confidence.getD (1/2) = cfg.confidence_threshold →
      (parseResponse cfg resp name).flagged_for_review =
        resp.integrity_flag.getD false) := by
  constructor
  · intro h
    exact parseResponse_lowconf cfg resp name h
  · intro h
    have hc : ¬ resp.confidence.getD (1/2) < cfg.confidence_threshold := by
      rw [h]; exact lt_irrefl _
    cases hi : resp.integrity_flag.getD false with
    | false => exact (parseResponse_not_flagged cfg resp name hc hi).1
    | true => exact (parseResponse_integrity_branch cfg resp name hc hi).1

/-- Witness for C2: threshold 0.7, confidence 69/100 = 0.69 is flagged
with the numeric value in the reason; confidence 7/10 = 0.70 is not
flagged when the integrity flag is absent. -/
theorem claim2_witness :
    ((69/100 : ℚ) < ({} : GraderConfig).confidence_threshold ∧
      (parseResponse {} { confidence := some (69/100) } "Smith").flagged_for_review = true ∧
      (parseResponse {} { confidence := some (69/100) } "Smith").flag_reason =
        "Low confidence score: 0.69") ∧
    ((7/10 : ℚ) = ({} : GraderConfig).confidence_threshold ∧
      (parseResponse {} { confidence := some (7/10) } "Smith").flagged_for_review = false) := by
  have hlt : (({ confidence := some (69/100) } : ResponseData).confidence.getD (1/2)) <
      ({} : GraderConfig).confidence_threshold := by
    show (69/100 : ℚ) < (0.7 : ℚ)
    norm_num
  have heq : (({ confidence := some (7/10) } : ResponseData).confidence.getD (1/2)) =
      ({} : GraderConfig).confidence_threshold := by
    show (7/10 : ℚ) = (0.7 : ℚ)
    norm_num
  refine ⟨⟨hlt, ?_, ?_⟩, ⟨heq, ?_⟩⟩
  · exact ((claim2_strict_confidence_triage {} { confidence := some (69/100) } "Smith").1 hlt).1
  · have h := ((claim2_strict_confidence_triage {} { confidence := some (69/100) } "Smith").1 hlt).2
    rw [h, show (({ confidence := some (69/100) } : ResponseData).confidence.getD (1/2)) =
      (69/100 : ℚ) from rfl, fmt2_069]
    rfl
  · have h := (claim2_strict_confidence_triage {} { confidence := some (7/10) } "Smith").2 heq
    rw [h]
    rfl

/-- Claim C3 as stated is false: a response with `integrity_flag` true but
confidence below the threshold (0.5 at the default threshold 0.7) is
flagged, but its `flag_reason` is the low-confidence message, which does
not reference integrity. -/
theorem claim3_counterexample :
    ¬ (∀ (cfg : GraderConfig) (resp : ResponseData) (name : String),
        resp.integrity_flag.getD false = true →
        (parseResponse cfg resp name).flagged_for_review = true ∧
        containsSubstring "integrity" (parseResponse cfg resp name).flag_reason = true) := by
  intro hclaim
  have h := hclaim {} { integrity_flag := some true, confidence := some (1/2) } "X" rfl
  have hreason := (parseResponse_lowconf {}
    { integrity_flag := some true, confidence := some (1/2) } "X"
    (by show (1/2 : ℚ) < (0.7 : ℚ); norm_num)).2
  rw [show (({ integrity_flag := some true, confidence := some (1/2) } :
      ResponseData).confidence.getD (1/2)) = (1/2 : ℚ) from rfl, fmt2_half] at hreason
  rw [hreason] at h
  exact absurd h.2 (by decide)

/-- Claim C3 amended: a response with `integrity_flag` true is always
flagged for review, but its `flag_reason` references integrity only when
the confidence criterion did not already fire — the low-confidence reason
takes priority in `_parse_response`. -/
theorem claim3_integrity_amended (cfg : GraderConfig) (resp : ResponseData)
    (name : String) (h : resp.integrity_flag.getD false = true) :
    (parseResponse cfg resp name).flagged_for_review = true ∧
    (¬ resp.confidence.getD (1/2) < cfg.confidence_threshold →
      (parseResponse cfg resp name).flag_reason =
        "Academic integrity concern: " ++ resp.integrity_reason.getD "" ∧
      containsSubstring "integrity" (parseResponse cfg resp name).flag_reason = true) := by
  constructor
  · exact parseResponse_invariant cfg resp name
      (Or.inr (Or.inr (by rw [parseResponse_integrity_eq, h])))
  · intro hc
    have hbr := parseResponse_integrity_branch cfg resp name hc h
    exact ⟨hbr.2, by rw [hbr.2]; exact containsSubstring_integrity _⟩

/-- Witness for the amended C3: integrity flag with confidence 0.9 above
the default threshold gives the integrity flag reason. -/
theorem claim3_witness :
    (parseResponse {} sampleIntegrityResp "X").flagged_for_review = true ∧
    (parseResponse {} sampleIntegrityResp "X").flag_reason =
      "Academic integrity concern: copied text" ∧
    containsSubstring "integrity"
      (parseResponse {} sampleIntegrityResp "X").flag_reason = true := by
  have h := claim3_integrity_amended {} sampleIntegrityResp "X" rfl
  have hc : ¬ (sampleIntegrityResp.confidence.getD (1/2)) <
      ({} : GraderConfig).confidence_threshold := by
    show ¬ (9/10 : ℚ) < (0.7 : ℚ)
    norm_num
  obtain ⟨h1, h2⟩ := h
  obtain ⟨h3, h4⟩ := h2 hc
  refine ⟨h1, ?_, h4⟩
  rw [h3]
  rfl

/-- Claim C4: a submission whose extraction failed short-circuits with no
API call (empty event trace) to a zero-score result carrying the
extraction error. -/
theorem claim4_extraction_short_circuit (cfg : GraderConfig)
    (sub : Submission) (dry_run : Bool) (oracle : Nat → CallOutcome)
    (h : sub.extraction_success = false) :
    (gradeSubmission cfg sub dry_run oracle).1 = [] ∧
    ((gradeSubmission cfg sub dry_run oracle).2.map GradingResult.flagged_for_review) = some true ∧
    ((gradeSubmission cfg sub dry_run oracle).2.map GradingResult.total_score) = some 0 ∧
    ((gradeSubmission cfg sub dry_run oracle).2.map GradingResult.error) = some sub.error_message ∧
    ((gradeSubmission cfg sub dry_run oracle).2.map GradingResult.flag_reason) =
      some ("PDF extraction failed: " ++ pyOptStr sub.error_message) := by
  unfold gradeSubmission
  rw [if_pos h]
  exact ⟨rfl, rfl, rfl, rfl, rfl⟩

/-- Witness for C4 at a concrete failed submission. -/
theorem claim4_witness :
    (gradeSubmission {} sampleFailSub false sampleSuccessOracle).1 = [] ∧
    ((gradeSubmission {} sampleFailSub false sampleSuccessOracle).2.map GradingResult.flagged_for_review) = some true ∧
    ((gradeSubmission {} sampleFailSub false sampleSuccessOracle).2.map GradingResult.total_score) = some 0 ∧
    ((gradeSubmission {} sampleFailSub false sampleSuccessOracle).2.map GradingResult.error) = some sampleFailSub.error_message ∧
    ((gradeSubmission {} sampleFailSub false sampleSuccessOracle).2.map GradingResult.flag_reason) =
      some ("PDF extraction failed: " ++ pyOptStr sampleFailSub.error_message) :=
  claim4_extraction_short_circuit {} sampleFailSub false sampleSuccessOracle rfl

/-- Claim C5: dry-run mode performs no API call (empty event trace) and,
whenever the configured threshold does not exceed the mock confidence
0.95, returns the fixed mock result parsed through the same validation
path as a live response: confidence 0.95, percentage 88.0, letter grade
B+, not flagged, no error. -/
theorem claim5_dry_run_mock (cfg : GraderConfig) (sub : Submission)
    (oracle : Nat → CallOutcome) (h1 : sub.extraction_success = true)
    (h2 : cfg.confidence_threshold ≤ 0.95) :
    (gradeSubmission cfg sub true oracle).1 = [] ∧
    (gradeSubmission cfg sub true oracle).2 =
      some (parseResponse cfg (buildDryRunResponse sub.student_name) sub.student_name) ∧
    ((gradeSubmission cfg sub true oracle).2.map GradingResult.confidence) = some 0.95 ∧
    ((gradeSubmission cfg sub true oracle).2.map GradingResult.percentage) = some 88.0 ∧
    ((gradeSubmission cfg sub true oracle).2.map GradingResult.letter_grade) = some "B+" ∧
    ((gradeSubmission cfg sub true oracle).2.map GradingResult.flagged_for_review) = some false ∧
    ((gradeSubmission cfg sub true oracle).2.map GradingResult.error) = some none := by
  have hgrade : gradeSubmission cfg sub true oracle =
      ([], some (parseResponse cfg (buildDryRunResponse sub.student_name) sub.student_name)) := by
    unfold gradeSubmission
    rw [if_neg (by simp [h1]), if_pos rfl]
  rw [hgrade]
  have hc : ¬ ((buildDryRunResponse sub.student_name).confidence.getD (1/2) <
      cfg.confidence_threshold) := by
    simp only [buildDryRunResponse, Option.getD_some]
    exact not_lt.mpr h2
  have hflag := parseResponse_not_flagged cfg (buildDryRunResponse sub.student_name)
    sub.student_name hc rfl
  refine ⟨rfl, rfl, rfl, rfl, rfl, ?_, rfl⟩
  simp [hflag.1]

/-- Witness for C5 at the default configuration (threshold 0.7). -/
theorem claim5_witness :
    (gradeSubmission {} sampleOkSub true sampleFailOracle).1 = [] ∧
    (gradeSubmission {} sampleOkSub true sampleFailOracle).2 =
      some (parseResponse {} (buildDryRunResponse sampleOkSub.student_name) sampleOkSub.student_name) ∧
    ((gradeSubmission {} sampleOkSub true sampleFailOracle).2.map GradingResult.confidence) = some 0.95 ∧
    ((gradeSubmission {} sampleOkSub true sampleFailOracle).2.map GradingResult.percentage) = some 88.0 ∧
    ((gradeSubmission {} sampleOkSub true sampleFailOracle).2.map GradingResult.letter_grade) = some "B+" ∧
    ((gradeSubmission {} sampleOkSub true sampleFailOracle).2.map GradingResult.flagged_for_review) = some false ∧
    ((gradeSubmission {} sampleOkSub true sampleFailOracle).2.map GradingResult.error) = some none :=
  claim5_dry_run_mock {} sampleOkSub sampleFailOracle rfl (by norm_num [GraderConfig.confidence_threshold])

/-- Claim C6: on the live path, when every attempt fails the retry loop
performs `max_retries + 1` API calls; after each non-final failed attempt
it sleeps 1 second for a malformed-JSON failure and `2 ^ attempt` seconds
for any other exception; after the final attempt fails it returns the
error result carrying the last error message instead of raising. -/
theorem claim6_retry_backoff (cfg : GraderConfig) (sub : Submission)
    (oracle : Nat → CallOutcome) (m : Nat)
    (hm : cfg.max_retries = (m : Int)) (hsub : sub.extraction_success = true)
    (hfail : ∀ i, i ≤ m → isFailure (oracle i) = true) :
    gradeSubmission cfg sub false oracle =
      ((List.range m).flatMap
          (fun i => [Event.apiCall, Event.sleep (failDelay i (oracle i))]) ++
          [Event.apiCall],
        some (createErrorResult sub.student_name
          ((failMessage (oracle m)).getD ""))) := by
  unfold gradeSubmission
  rw [if_neg (by simp [hsub])]
  simp only [Bool.false_eq_true, if_false]
  rw [apiLoop_all_fail cfg sub.student_name oracle m hm m 0 (by omega)
    (fun i _ hi => hfail i hi)]
  rw [List.range_eq_range']

/-- Witness for C6 at the default configuration (`max_retries = 2`) with a
JSON failure on attempt 0 and other errors afterwards. -/
theorem claim6_witness :
    gradeSubmission {} sampleOkSub false sampleFailOracle =
      ((List.range 2).flatMap
          (fun i => [Event.apiCall, Event.sleep (failDelay i (sampleFailOracle i))]) ++
          [Event.apiCall],
        some (createErrorResult sampleOkSub.student_name
          ((failMessage (sampleFailOracle 2)).getD ""))) :=
  claim6_retry_backoff {} sampleOkSub sampleFailOracle 2 rfl rfl (by decide)

/-- Claim C10: on the live path (`extraction_success = true`,
`dry_run = false`) `grade_submission` returns a result exactly when
`max_retries` is non-negative; for a negative `max_retries` the retry
loop body never runs and the function returns `none`. -/
theorem claim10_retry_guard (cfg : GraderConfig) (sub : Submission)
    (oracle : Nat → CallOutcome) (h : sub.extraction_success = true) :
    ((gradeSubmission cfg sub false oracle).2).isSome = true ↔
      0 ≤ cfg.max_retries := by
  unfold gradeSubmission
  rw [if_neg (by simp [h])]
  simp only [Bool.false_eq_true, if_false]
  constructor
  · intro hs
    by_contra hneg
    push_neg at hneg
    rw [apiLoop, dif_neg (by exact_mod_cast not_le.mpr hneg)] at hs
    simp at hs
  · intro h0
    exact apiLoop_isSome cfg sub.student_name oracle _ 0 rfl (by exact_mod_cast h0)

/-- Witness for C10: at the default configuration (`max_retries = 2`) a
result is returned. -/
theorem claim10_witness :
    ((gradeSubmission {} sampleOkSub false sampleFailOracle).2).isSome = true ↔
      0 ≤ ({} : GraderConfig).max_retries :=
  claim10_retry_guard {} sampleOkSub sampleFailOracle rfl

/-- Claim C7 as stated is false: the audit record does not contain every
`GradingResult` field other than the raw payload — `feedback` (among
others) is a result field absent from the audit record keys. -/
theorem claim7_counterexample :
    ¬ (∀ f ∈ gradingResultFields, f ≠ "raw_response" → f ∈ auditEntryKeys) := by
  decide

/-- Claim C7 amended: the audit log holds exactly one record per processed
submission (offset-adjusted) in processing order; each record carries the
timestamp, the student name (under the key `student_id`), and the
`total_score`, `max_possible_score`, `percentage`, `letter_grade`,
`rubric_scores`, `confidence`, `integrity_flag`, `flagged_for_review`,
`flag_reason` and `error` fields — omitting `raw_response` and also
`feedback`, `strengths`, `improvements` and `integrity_reason`. -/
theorem claim7_audit_amended (g : Submission → GradingResult) (now : String)
    (dr : Bool) (d : ℚ) (subs : List Submission) (start size : Nat)
    (h : 0 < size) :
    auditLogOf (pipelineEvents g now dr d subs start size) =
      (subs.drop start).map (fun s => writeAuditEntry now (g s)) ∧
    (auditLogOf (pipelineEvents g now dr d subs start size)).length =
      subs.length - start ∧
    (∀ r, (writeAuditEntry now r).student_id = r.student_name ∧
      (writeAuditEntry now r).total_score = r.total_score ∧
      (writeAuditEntry now r).max_possible_score = r.max_possible_score ∧
      (writeAuditEntry now r).percentage = r.percentage ∧
      (writeAuditEntry now r).letter_grade = r.letter_grade ∧
      (writeAuditEntry now r).rubric_scores = r.rubric_scores ∧
      (writeAuditEntry now r).confidence = r.confidence ∧
      (writeAuditEntry now r).integrity_flag = r.integrity_flag ∧
      (writeAuditEntry now r).flagged_for_review = r.flagged_for_review ∧
      (writeAuditEntry now r).flag_reason = r.flag_reason ∧
      (writeAuditEntry now r).error = r.error) ∧
    gradingResultFields.filter (fun f => !(auditEntryKeys.contains f)) =
      ["student_name", "feedback", "strengths", "improvements",
       "integrity_reason", "raw_response"] := by
  refine ⟨auditLogOf_pipeline g now dr d subs start size h, ?_, ?_, by decide⟩
  · rw [auditLogOf_pipeline g now dr d subs start size h, List.length_map,
      List.length_drop]
  · intro r
    exact ⟨rfl, rfl, rfl, rfl, rfl, rfl, rfl, rfl, rfl, rfl, rfl⟩

/-- Witness for the amended C7 on a concrete three-submission run with
offset 1 and batch size 2. -/
theorem claim7_witness :
    auditLogOf (pipelineEvents sampleGradeFn "t0" true 5 sampleSubs 1 2) =
      (sampleSubs.drop 1).map (fun s => writeAuditEntry "t0" (sampleGradeFn s)) ∧
    (auditLogOf (pipelineEvents sampleGradeFn "t0" true 5 sampleSubs 1 2)).length =
      sampleSubs.length - 1 ∧
    (∀ r, (writeAuditEntry "t0" r).student_id = r.student_name ∧
      (writeAuditEntry "t0" r).total_score = r.total_score ∧
      (writeAuditEntry "t0" r).max_possible_score = r.max_possible_score ∧
      (writeAuditEntry "t0" r).percentage = r.percentage ∧
      (writeAuditEntry "t0" r).letter_grade = r.letter_grade ∧
      (writeAuditEntry "t0" r).rubric_scores = r.rubric_scores ∧
      (writeAuditEntry "t0" r).confidence = r.confidence ∧
      (writeAuditEntry "t0" r).integrity_flag = r.integrity_flag ∧
      (writeAuditEntry "t0" r).flagged_for_review = r.flagged_for_review ∧
      (writeAuditEntry "t0" r).flag_reason = r.flag_reason ∧
      (writeAuditEntry "t0" r).error = r.error) ∧
    gradingResultFields.filter (fun f => !(auditEntryKeys.contains f)) =
      ["student_name", "feedback", "strengths", "improvements",
       "integrity_reason", "raw_response"] :=
  claim7_audit_amended sampleGradeFn "t0" true 5 sampleSubs 1 2 (by decide)

/-- Claim C8: a missing submissions directory and a directory with no PDF
files are both fatal errors raised before any submission is produced,
while a per-file extraction failure is non-fatal — it yields a
`Submission` with `extraction_success = false` and a descriptive message
and every listed PDF is still processed. -/
theorem claim8_directory_errors (fs : FileSystem) :
    (fs.dirExists = false →
      getAllSubmissions fs = .error "Submissions directory not found") ∧
    (fs.dirExists = true → fs.pdfFiles = [] →
      getAllSubmissions fs = .error "No PDF files found") ∧
    (∀ filename msg, fs.extract filename = .raises msg →
      (processSubmission fs.extract filename).extraction_success = false ∧
      (processSubmission fs.extract filename).error_message = some msg) ∧
    (fs.dirExists = true → fs.pdfFiles ≠ [] →
      getAllSubmissions fs =
        .ok ((fs.pdfFiles.mergeSort (· ≤ ·)).map (processSubmission fs.extract)) ∧
      ∀ l, getAllSubmissions fs = .ok l → l.length = fs.pdfFiles.length) := by
  refine ⟨?_, ?_, ?_, ?_⟩
  · intro h
    unfold getAllSubmissions
    rw [if_pos h]
  · intro h1 h2
    unfold getAllSubmissions
    rw [if_neg (by rw [h1]; simp), h2]
    simp [List.mergeSort_nil]
  · intro filename msg h
    unfold processSubmission
    rw [h]
    exact ⟨rfl, rfl⟩
  · intro h1 h2
    have hne : fs.pdfFiles.mergeSort (· ≤ ·) ≠ [] := by
      intro hnil
      apply h2
      have hlen := congrArg List.length hnil
      rw [List.length_mergeSort] at hlen
      exact List.length_eq_zero.mp hlen
    have hok : getAllSubmissions fs =
        .ok ((fs.pdfFiles.mergeSort (· ≤ ·)).map (processSubmission fs.extract)) := by
      unfold getAllSubmissions
      rw [if_neg (by rw [h1]; simp), if_neg hne]
    refine ⟨hok, ?_⟩
    intro l hl
    rw [hok] at hl
    rw [← Except.ok.inj hl, List.length_map, List.length_mergeSort]

/-- Witness for C8 on three concrete filesystems. -/
theorem claim8_witness :
    getAllSubmissions fsMissing = .error "Submissions directory not found" ∧
    getAllSubmissions fsEmptyDir = .error "No PDF files found" ∧
    ((processSubmission fsMixed.extract "jones.pdf").extraction_success = false ∧
      (processSubmission fsMixed.extract "jones.pdf").error_message =
        some "cannot open broken file: jones.pdf") ∧
    getAllSubmissions fsMixed =
      .ok ((fsMixed.pdfFiles.mergeSort (· ≤ ·)).map (processSubmission fsMixed.extract)) :=
  ⟨(claim8_directory_errors fsMissing).1 rfl,
   (claim8_directory_errors fsEmptyDir).2.1 rfl rfl,
   (claim8_directory_errors fsMixed).2.2.1 "jones.pdf"
     "cannot open broken file: jones.pdf" (by decide),
   ((claim8_directory_errors fsMixed).2.2.2 rfl (by decide)).1⟩

/-- Claim C9: with batch size 2 over any 5 submissions the orchestrator
forms 3 batches, and the inter-batch delay occurs exactly twice — once
between batch 1 and batch 2, once between batch 2 and batch 3 — and never
before the first batch or after the last. -/
theorem claim9_batch_delays (g : Submission → GradingResult) (now : String)
    (d : ℚ) (s1 s2 s3 s4 s5 : Submission) :
    (batches ([s1, s2, s3, s4, s5].drop 0) 2).length = 3 ∧
    pipelineEvents g now true d [s1, s2, s3, s4, s5] 0 2 =
      processBatch g now true [s1, s2] ++
        PipeEvent.interBatchDelay d ::
          (processBatch g now true [s3, s4] ++
            PipeEvent.interBatchDelay d :: processBatch g now true [s5]) ∧
    (pipelineEvents g now true d [s1, s2, s3, s4, s5] 0 2).countP
      isInterBatchDelayEvent = 2 ∧
    (∀ batch, (processBatch g now true batch).countP isInterBatchDelayEvent = 0) := by
  have hbat : batches ([s1, s2, s3, s4, s5].drop 0) 2 =
      [[s1, s2], [s3, s4], [s5]] := by
    simp [batches]
  have hpipe : pipelineEvents g now true d [s1, s2, s3, s4, s5] 0 2 =
      processBatch g now true [s1, s2] ++
        PipeEvent.interBatchDelay d ::
          (processBatch g now true [s3, s4] ++
            PipeEvent.interBatchDelay d :: processBatch g now true [s5]) := by
    unfold pipelineEvents
    rw [hbat]
    simp
  refine ⟨by rw [hbat]; rfl, hpipe, ?_, processBatch_countP g now true⟩
  rw [hpipe]
  simp [List.countP_append, List.countP_cons, isInterBatchDelayEvent,
    processBatch_countP g now true]

end TAAgent
